import Mathlib

/-!
Verification development for the core of the gossa SSA interpreter.

The definitions below are a shallow embedding of the interpreter's
runtime value model, operator kernels, instruction executors, slicing,
type assertion, recover, and the top-level `Run` driver, translated
from the Go source.  Machine integers are modelled as `Int` with
explicit wrapping modulo `2 ^ w`; fallible code returns `Except`.
Floating-point and complex payloads are carried as exact rationals:
no claim below depends on IEEE rounding, only on kind dispatch.
Named (user-declared) types, which the source handles through a
reflect-kind fallback, are outside the modelled value space; each
such fallback arm is noted in a comment where it occurs.
-/

namespace Gossa

/-- Wrap an integer to the signed two's-complement range of width `w`
(the result of a Go arithmetic operation on a signed `w`-bit type). -/
def wrapS (w : Nat) (v : Int) : Int :=
  (v + 2 ^ (w - 1)) % 2 ^ w - 2 ^ (w - 1)

/-- Wrap an integer to the unsigned range of width `w`. -/
def wrapU (w : Nat) (v : Int) : Int :=
  v % 2 ^ w

/-- Runtime values of the interpreter (the source's `value`, an
`interface\x7b\x7d` cell).  Signed kinds carry `Int`, unsigned kinds carry a
nonnegative `Int`, float and complex kinds carry exact rationals,
`strv` carries a string (the claims only exercise ASCII strings, for
which Go's byte indexing and the character model here agree). -/
inductive GoValue where
  | boolv (b : Bool)
  | intv (v : Int)
  | int8v (v : Int)
  | int16v (v : Int)
  | int32v (v : Int)
  | int64v (v : Int)
  | uintv (v : Int)
  | uint8v (v : Int)
  | uint16v (v : Int)
  | uint32v (v : Int)
  | uint64v (v : Int)
  | uintptrv (v : Int)
  | float32v (v : Rat)
  | float64v (v : Rat)
  | complex64v (re im : Rat)
  | complex128v (re im : Rat)
  | strv (s : String)
  deriving DecidableEq, Repr

/-- The Go `%T` name of a value's dynamic type. -/
def typeName : GoValue → String
  | .boolv _ => "bool"
  | .intv _ => "int"
  | .int8v _ => "int8"
  | .int16v _ => "int16"
  | .int32v _ => "int32"
  | .int64v _ => "int64"
  | .uintv _ => "uint"
  | .uint8v _ => "uint8"
  | .uint16v _ => "uint16"
  | .uint32v _ => "uint32"
  | .uint64v _ => "uint64"
  | .uintptrv _ => "uintptr"
  | .float32v _ => "float32"
  | .float64v _ => "float64"
  | .complex64v _ _ => "complex64"
  | .complex128v _ _ => "complex128"
  | .strv _ => "string"

/-- Faults raised while executing an instruction, distinguished the way
the interpreter's error taxonomy distinguishes them:
`runtimeErr` is the interpreter's `runtimeError` (it has a
`RuntimeError()` method, so it satisfies Go's `runtime.Error`);
`plainErr` is the interpreter's `plainError` (only `Error()`);
`hostRuntimeErr` is a `runtime.Error` raised by the host runtime
(for example a failed `interface\x7b\x7d` type assertion);
`crash` is a plain interpreter panic carrying a string. -/
inductive Fault where
  | runtimeErr (msg : String)
  | plainErr (msg : String)
  | hostRuntimeErr (msg : String)
  | crash (msg : String)
  deriving DecidableEq, Repr

/-- Equality of `Except` results is decidable when both components
have decidable equality (used to evaluate executor results). -/
instance instDecEqExceptGossa {ε α : Type} [DecidableEq ε] [DecidableEq α] :
    DecidableEq (Except ε α)
  | .error a, .error b =>
    if h : a = b then .isTrue (congrArg Except.error h)
    else .isFalse (fun he => h (Except.error.inj he))
  | .error _, .ok _ => .isFalse (fun he => Except.noConfusion he)
  | .ok _, .error _ => .isFalse (fun he => Except.noConfusion he)
  | .ok a, .ok b =>
    if h : a = b then .isTrue (congrArg Except.ok h)
    else .isFalse (fun he => h (Except.ok.inj he))

/-- Whether a fault satisfies the target language's `runtime.Error`
shape (has a `RuntimeError()` method). -/
def faultIsRuntimeError : Fault → Bool
  | .runtimeErr _ => true
  | .hostRuntimeErr _ => true
  | .plainErr _ => false
  | .crash _ => false

/-- The host panic produced by a failed Go type assertion `y.(want)`
on an `interface\x7b\x7d` cell: a `*runtime.TypeAssertionError`, which is a
`runtime.Error`. -/
def assertFault (y : GoValue) (want : String) : Fault :=
  .hostRuntimeErr
    ("interface conversion: interface \x7b\x7d is " ++ typeName y ++ ", not " ++ want)

/-- The generic `+` kernel `opADD`.  The source switches on the
dynamic type of `x` and then asserts the same type on `y`; a
mismatched `y` therefore faults with a host type-assertion error.
The final reflect-kind branch (named types of a numeric or string
kind) is outside the modelled value space; within it, `bool` operands
reach the source's `goto failed` panic. -/
def opADD (x y : GoValue) : Except Fault GoValue :=
  match x, y with
  | .intv a, .intv b => .ok (.intv (wrapS 64 (a + b)))
  | .intv _, _ => .error (assertFault y ("int"))
  | .int8v a, .int8v b => .ok (.int8v (wrapS 8 (a + b)))
  | .int8v _, _ => .error (assertFault y ("int8"))
  | .int16v a, .int16v b => .ok (.int16v (wrapS 16 (a + b)))
  | .int16v _, _ => .error (assertFault y ("int16"))
  | .int32v a, .int32v b => .ok (.int32v (wrapS 32 (a + b)))
  | .int32v _, _ => .error (assertFault y ("int32"))
  | .int64v a, .int64v b => .ok (.int64v (wrapS 64 (a + b)))
  | .int64v _, _ => .error (assertFault y ("int64"))
  | .uintv a, .uintv b => .ok (.uintv (wrapU 64 (a + b)))
  | .uintv _, _ => .error (assertFault y ("uint"))
  | .uint8v a, .uint8v b => .ok (.uint8v (wrapU 8 (a + b)))
  | .uint8v _, _ => .error (assertFault y ("uint8"))
  | .uint16v a, .uint16v b => .ok (.uint16v (wrapU 16 (a + b)))
  | .uint16v _, _ => .error (assertFault y ("uint16"))
  | .uint32v a, .uint32v b => .ok (.uint32v (wrapU 32 (a + b)))
  | .uint32v _, _ => .error (assertFault y ("uint32"))
  | .uint64v a, .uint64v b => .ok (.uint64v (wrapU 64 (a + b)))
  | .uint64v _, _ => .error (assertFault y ("uint64"))
  | .uintptrv a, .uintptrv b => .ok (.uintptrv (wrapU 64 (a + b)))
  | .uintptrv _, _ => .error (assertFault y ("uintptr"))
  | .float32v a, .float32v b => .ok (.float32v (a + b))
  | .float32v _, _ => .error (assertFault y ("float32"))
  | .float64v a, .float64v b => .ok (.float64v (a + b))
  | .float64v _, _ => .error (assertFault y ("float64"))
  | .complex64v a b, .complex64v c d => .ok (.complex64v (a + c) (b + d))
  | .complex64v _ _, _ => .error (assertFault y ("complex64"))
  | .complex128v a b, .complex128v c d => .ok (.complex128v (a + c) (b + d))
  | .complex128v _ _, _ => .error (assertFault y ("complex128"))
  | .strv a, .strv b => .ok (.strv (a ++ b))
  | .strv _, _ => .error (assertFault y ("string"))
  | .boolv _, _ =>
      .error (.crash ("invalid binary op: bool + " ++ typeName y))

/-- The generic `*` kernel `opMUL`.  Like `opADD` but with no string
arm: string operands reach the source's `goto failed` panic. -/
def opMUL (x y : GoValue) : Except Fault GoValue :=
  match x, y with
  | .intv a, .intv b => .ok (.intv (wrapS 64 (a * b)))
  | .intv _, _ => .error (assertFault y ("int"))
  | .int8v a, .int8v b => .ok (.int8v (wrapS 8 (a * b)))
  | .int8v _, _ => .error (assertFault y ("int8"))
  | .int16v a, .int16v b => .ok (.int16v (wrapS 16 (a * b)))
  | .int16v _, _ => .error (assertFault y ("int16"))
  | .int32v a, .int32v b => .ok (.int32v (wrapS 32 (a * b)))
  | .int32v _, _ => .error (assertFault y ("int32"))
  | .int64v a, .int64v b => .ok (.int64v (wrapS 64 (a * b)))
  | .int64v _, _ => .error (assertFault y ("int64"))
  | .uintv a, .uintv b => .ok (.uintv (wrapU 64 (a * b)))
  | .uintv _, _ => .error (assertFault y ("uint"))
  | .uint8v a, .uint8v b => .ok (.uint8v (wrapU 8 (a * b)))
  | .uint8v _, _ => .error (assertFault y ("uint8"))
  | .uint16v a, .uint16v b => .ok (.uint16v (wrapU 16 (a * b)))
  | .uint16v _, _ => .error (assertFault y ("uint16"))
  | .uint32v a, .uint32v b => .ok (.uint32v (wrapU 32 (a * b)))
  | .uint32v _, _ => .error (assertFault y ("uint32"))
  | .uint64v a, .uint64v b => .ok (.uint64v (wrapU 64 (a * b)))
  | .uint64v _, _ => .error (assertFault y ("uint64"))
  | .uintptrv a, .uintptrv b => .ok (.uintptrv (wrapU 64 (a * b)))
  | .uintptrv _, _ => .error (assertFault y ("uintptr"))
  | .float32v a, .float32v b => .ok (.float32v (a * b))
  | .float32v _, _ => .error (assertFault y ("float32"))
  | .float64v a, .float64v b => .ok (.float64v (a * b))
  | .float64v _, _ => .error (assertFault y ("float64"))
  | .complex64v a b, .complex64v c d =>
      .ok (.complex64v (a * c - b * d) (a * d + b * c))
  | .complex64v _ _, _ => .error (assertFault y ("complex64"))
  | .complex128v a b, .complex128v c d =>
      .ok (.complex128v (a * c - b * d) (a * d + b * c))
  | .complex128v _ _, _ => .error (assertFault y ("complex128"))
  | .strv _, _ =>
      .error (.crash ("invalid binary op: string * " ++ typeName y))
  | .boolv _, _ =>
      .error (.crash ("invalid binary op: bool * " ++ typeName y))

/-- The executor compiled for `*ssa.BinOp` with `token.ADD`
(`makeInstr`): it computes `fr.reg(ix).(int) + fr.reg(iy).(int)`
unconditionally, so any operand that is not a plain `int` faults with
a host type-assertion error (left operand asserted first).  It never
calls `opADD`. -/
def execADD (x y : GoValue) : Except Fault GoValue :=
  match x with
  | .intv a =>
    match y with
    | .intv b => .ok (.intv (wrapS 64 (a + b)))
    | _ => .error (assertFault y ("int"))
  | _ => .error (assertFault x ("int"))

/-- The executor compiled for `token.SUB`: `fr.reg(ix).(int) -
fr.reg(iy).(int)`, int-only like `execADD`. -/
def execSUB (x y : GoValue) : Except Fault GoValue :=
  match x with
  | .intv a =>
    match y with
    | .intv b => .ok (.intv (wrapS 64 (a - b)))
    | _ => .error (assertFault y ("int"))
  | _ => .error (assertFault x ("int"))

/-- The executor compiled for `token.LSS`: `fr.reg(ix).(int) <
fr.reg(iy).(int)`, int-only like `execADD`. -/
def execLSS (x y : GoValue) : Except Fault GoValue :=
  match x with
  | .intv a =>
    match y with
    | .intv b => .ok (.boolv (decide (a < b)))
    | _ => .error (assertFault y ("int"))
  | _ => .error (assertFault x ("int"))

/-- The executor compiled for `token.MUL` delegates to the generic
kernel: `fr.env[instr] = opMUL(fr.get(instr.X), fr.get(instr.Y))`. -/
def execMUL (x y : GoValue) : Except Fault GoValue :=
  opMUL x y

/-- The shift-count conversion `asUint64`.  Only unsigned kinds
succeed.  The reflect-kind fallback in the source computes `v.Uint()`
for named unsigned kinds but discards the result and falls through to
the panic, so every value outside the direct unsigned kinds faults
with the plain panic `cannot convert %T to uint64`. -/
def asUint64 (x : GoValue) : Except Fault Int :=
  match x with
  | .uintv v => .ok v
  | .uint8v v => .ok v
  | .uint16v v => .ok v
  | .uint32v v => .ok v
  | .uint64v v => .ok v
  | .uintptrv v => .ok v
  | _ => .error (.crash ("cannot convert " ++ typeName x ++ " to uint64"))

/-- The generic `<<` kernel `opSHL`: converts the count with
`asUint64`, then shifts per the kind of `x` (named numeric kinds,
handled by the source's reflect fallback, are outside the modelled
value space; non-integer kinds reach `goto failed`). -/
def opSHL (x y : GoValue) : Except Fault GoValue := do
  let n ← asUint64 y
  match x with
  | .intv a => .ok (.intv (wrapS 64 (a * 2 ^ n.toNat)))
  | .int8v a => .ok (.int8v (wrapS 8 (a * 2 ^ n.toNat)))
  | .int16v a => .ok (.int16v (wrapS 16 (a * 2 ^ n.toNat)))
  | .int32v a => .ok (.int32v (wrapS 32 (a * 2 ^ n.toNat)))
  | .int64v a => .ok (.int64v (wrapS 64 (a * 2 ^ n.toNat)))
  | .uintv a => .ok (.uintv (wrapU 64 (a * 2 ^ n.toNat)))
  | .uint8v a => .ok (.uint8v (wrapU 8 (a * 2 ^ n.toNat)))
  | .uint16v a => .ok (.uint16v (wrapU 16 (a * 2 ^ n.toNat)))
  | .uint32v a => .ok (.uint32v (wrapU 32 (a * 2 ^ n.toNat)))
  | .uint64v a => .ok (.uint64v (wrapU 64 (a * 2 ^ n.toNat)))
  | .uintptrv a => .ok (.uintptrv (wrapU 64 (a * 2 ^ n.toNat)))
  | _ =>
      .error (.crash ("invalid binary op: " ++ typeName x ++ " << " ++ typeName y))

/-- The generic `>>` kernel `opSHR` (arithmetic shift on signed kinds,
logical on unsigned). -/
def opSHR (x y : GoValue) : Except Fault GoValue := do
  let n ← asUint64 y
  match x with
  | .intv a => .ok (.intv (Int.fdiv a (2 ^ n.toNat)))
  | .int8v a => .ok (.int8v (Int.fdiv a (2 ^ n.toNat)))
  | .int16v a => .ok (.int16v (Int.fdiv a (2 ^ n.toNat)))
  | .int32v a => .ok (.int32v (Int.fdiv a (2 ^ n.toNat)))
  | .int64v a => .ok (.int64v (Int.fdiv a (2 ^ n.toNat)))
  | .uintv a => .ok (.uintv (a / 2 ^ n.toNat))
  | .uint8v a => .ok (.uint8v (a / 2 ^ n.toNat))
  | .uint16v a => .ok (.uint16v (a / 2 ^ n.toNat))
  | .uint32v a => .ok (.uint32v (a / 2 ^ n.toNat))
  | .uint64v a => .ok (.uint64v (a / 2 ^ n.toNat))
  | .uintptrv a => .ok (.uintptrv (a / 2 ^ n.toNat))
  | _ =>
      .error (.crash ("invalid binary op: " ++ typeName x ++ " >> " ++ typeName y))

/-- The executor compiled for `token.SHL` when `instr.Y` is an
`*ssa.Convert` whose source kind is a signed integer: the executor
re-reads the convert source `cx`, fails with
`runtimeError("negative shift amount")` when it is negative, and
otherwise calls `opSHL` on the converted (unsigned 64-bit) count. -/
def execSHLConvSigned (x : GoValue) (cx : Int) : Except Fault GoValue :=
  if cx < 0 then .error (.runtimeErr ("negative shift amount"))
  else opSHL x (.uint64v (wrapU 64 cx))

/-- The executor compiled for `token.SHL` in every other case (the
shift-count operand is not an `*ssa.Convert` from a signed kind):
no negativity check, straight to `opSHL`. -/
def execSHLGeneric (x y : GoValue) : Except Fault GoValue :=
  opSHL x y

/-- The executor compiled for `token.SHR` with the Convert-from-signed
shape, mirroring `execSHLConvSigned`. -/
def execSHRConvSigned (x : GoValue) (cx : Int) : Except Fault GoValue :=
  if cx < 0 then .error (.runtimeErr ("negative shift amount"))
  else opSHR x (.uint64v (wrapU 64 cx))

/-- The executor compiled for `token.SHR` in every other case. -/
def execSHRGeneric (x y : GoValue) : Except Fault GoValue :=
  opSHR x y

/-- The operand of a `Slice` instruction after the pointer dereference
at the top of the source's `slice`: either a string (reflect kind
`String`) or a slice/array whose contents are abstracted to its
length and capacity (the bounds checks never inspect elements). -/
inductive SliceOperand where
  | strOp (s : String)
  | slOp (len cap : Int)
  deriving DecidableEq, Repr

/-- The result of a `Slice` instruction: a substring, or the verified
`v.Slice3(l, h, m)` bounds on a slice/array operand. -/
inductive SliceResult where
  | strRes (s : String)
  | slRes (lo hi mx : Int)
  deriving DecidableEq, Repr

/-- Byte range `l..h` of a string (the claims only use ASCII inputs,
where Go's byte slicing and this character slicing agree). -/
def goSubstring (s : String) (l h : Int) : String :=
  ((s.data.drop l.toNat).take (h - l).toNat).asString

/-- Length and capacity of a slice operand; for a string both are its
length. -/
def operandLenCap : SliceOperand → Int × Int
  | .strOp s => ((s.length : Int), (s.length : Int))
  | .slOp len cap => (len, cap)

/-- The source's `slice(fr, instr)`, which computes `x[lo:hi:mx]`.
`makeslice` is the source's `_, makeslice := instr.X.(*ssa.Alloc)`
flag; `lo`, `hi`, `mx` are `none` when the corresponding index is
absent, and index values are already converted by `asInt`.  The
bounds checks and their messages mirror the source line by line; the
two-index string result reproduces the `l == h` fast path. -/
def slice (makeslice : Bool) (x : SliceOperand) (lo hi mx : Option Int) :
    Except Fault SliceResult :=
  let Len := (operandLenCap x).1
  let Cap := (operandLenCap x).2
  let l := lo.getD 0
  let h := hi.getD Len
  let slice3 := mx.isSome
  let m := mx.getD Cap
  let isSlice := match x with
    | .strOp _ => false
    | .slOp _ _ => true
  let finish : Except Fault SliceResult :=
    match x with
    | .strOp s => if l == h then .ok (.strRes ("")) else .ok (.strRes (goSubstring s l h))
    | .slOp _ _ => .ok (.slRes l h m)
  if makeslice then
    if h < 0 then .error (.runtimeErr ("makeslice: len out of range"))
    else if h > m then .error (.runtimeErr ("makeslice: cap out of range"))
    else finish
  else if slice3 then
    if m < 0 then
      .error (.runtimeErr ("slice bounds out of range [::" ++ toString m ++ "]"))
    else if m > Cap then
      (if isSlice then
        .error (.runtimeErr
          ("slice bounds out of range [::" ++ toString m ++ "] with capacity " ++ toString Cap))
      else
        .error (.runtimeErr
          ("slice bounds out of range [::" ++ toString m ++ "] with length " ++ toString Cap)))
    else if h < 0 then
      .error (.runtimeErr ("slice bounds out of range [:" ++ toString h ++ ":]"))
    else if h > m then
      .error (.runtimeErr
        ("slice bounds out of range [:" ++ toString h ++ ":" ++ toString m ++ "]"))
    else if l < 0 then
      .error (.runtimeErr ("slice bounds out of range [" ++ toString l ++ "::]"))
    else if l > h then
      .error (.runtimeErr
        ("slice bounds out of range [" ++ toString l ++ ":" ++ toString h ++ ":]"))
    else finish
  else
    if h < 0 then
      .error (.runtimeErr ("slice bounds out of range [:" ++ toString h ++ "]"))
    else if h > Cap then
      (if isSlice then
        .error (.runtimeErr
          ("slice bounds out of range [:" ++ toString h ++ "] with capacity " ++ toString Cap))
      else
        .error (.runtimeErr
          ("slice bounds out of range [:" ++ toString h ++ "] with length " ++ toString Cap)))
    else if l < 0 then
      .error (.runtimeErr ("slice bounds out of range [" ++ toString l ++ ":]"))
    else if l > h then
      .error (.runtimeErr
        ("slice bounds out of range [" ++ toString l ++ ":" ++ toString h ++ "]"))
    else finish

/-- The maximum memory length bound computed by the package `init`:
`2 ^ 31 - 1` when the host `int` is 32 bits wide, `2 ^ 59` otherwise. -/
def maxMemLen (intSize : Nat) : Int :=
  if intSize == 32 then 2 ^ 31 - 1 else 2 ^ 59

/-- A slice produced by `reflect.MakeSlice`, abstracted to its bounds. -/
structure MadeSlice where
  len : Int
  cap : Int
  deriving DecidableEq, Repr

/-- The executor compiled for `*ssa.MakeSlice`: checks
`Len < 0 || Len >= maxMemLen`, then `Cap < 0 || Cap >= maxMemLen`,
then calls `reflect.MakeSlice`, which itself panics with a plain
string when `len > cap` (the interpreter performs no such check). -/
def makeSliceExec (mm : Int) (len cap : Int) : Except Fault MadeSlice :=
  if len < 0 || len ≥ mm then .error (.runtimeErr ("makeslice: len out of range"))
  else if cap < 0 || cap ≥ mm then .error (.runtimeErr ("makeslice: cap out of range"))
  else if len > cap then .error (.crash ("reflect.MakeSlice: len > cap"))
  else .ok ⟨len, cap⟩

/-- A host reflect type as the type-assertion executor sees it: its
printed name and the zero value `reflect.New(typ).Elem()`. -/
structure RType where
  name : String
  zero : GoValue
  deriving DecidableEq, Repr

/-- A non-nil `interface\x7b\x7d` cell: dynamic type plus payload. -/
structure DynValue where
  rtype : RType
  payload : GoValue
  deriving DecidableEq, Repr

/-- Result of a type assertion: a scalar, or the CommaOk tuple. -/
inductive TAResult where
  | one (v : GoValue)
  | pair (v : GoValue) (ok : Bool)
  deriving DecidableEq, Repr

/-- The source's `typeAssert(i, instr, iv)`.  A nil operand produces a
`plainError` (not a `runtimeError`); a matching dynamic type returns
the payload.  Assignability of distinct ground types is modelled as
type identity; the source's interface missing-method and
same-name-different-scope refinements only change the failure message
of `runtimeErr` and are outside the modelled type space.
`xTypeStr` is the static type `instr.X.Type()` used in messages. -/
def typeAssert (commaOk : Bool) (T : RType) (xTypeStr : String)
    (iv : Option DynValue) : Except Fault TAResult :=
  match iv with
  | none =>
    let e := Fault.plainErr ("interface conversion: interface is nil, not " ++ T.name)
    if commaOk then .ok (.pair T.zero false) else .error e
  | some d =>
    if d.rtype = T then
      (if commaOk then .ok (.pair d.payload true) else .ok (.one d.payload))
    else
      let e := Fault.runtimeErr
        ("interface conversion: " ++ xTypeStr ++ " is " ++ d.rtype.name ++ ", not " ++ T.name)
      if commaOk then .ok (.pair T.zero false) else .error e

/-- Go types as the `Store` lowering inspects them.  The source keeps
the front end's syntactic types: a named struct type is `named`
wrapping a `structT`, not a bare `structT`. -/
inductive GoType where
  | basic (name : String)
  | pointer (elem : GoType)
  | structT (fields : List String)
  | named (name : String) (underlying : GoType)
  deriving DecidableEq, Repr

/-- The blank-field test in the `*ssa.Store` arm of `makeInstr`:
`instr.Addr` must be an `*ssa.FieldAddr`, and
`addr.X.Type().(*types.Pointer).Elem().(*types.Struct)` must succeed —
a direct (unnamed) struct type — with the selected field named `_`.
`fa` is `none` when the address operand is not a `FieldAddr`,
otherwise the pair of `addr.X.Type()` and the field index.
When this returns `true`, `makeInstr` returns no executor and the
block assembler drops the instruction. -/
def storeSkipsBlankField (fa : Option (GoType × Nat)) : Bool :=
  match fa with
  | some (xType, field) =>
    match xType with
    | .pointer (.structT fields) => decide (fields.get? field = some ("_"))
    | _ => false
  | none => false

/-- Effect of one compiled `Store`-through-`FieldAddr` instruction on
the addressed struct (its fields as a list): skipped instructions
contribute no executor, every other one writes the field. -/
def execStoreField (xType : GoType) (field : Nat)
    (fields : List GoValue) (v : GoValue) : List GoValue :=
  if storeSkipsBlankField (some (xType, field)) then fields
  else fields.set field v

/-- Host panic payloads that the top-level `Run`, `RunFunc` and
`doRecover` distinguish: `target` is `targetPanic`, `exit` is
`exitPanic`, `rte` is the interpreter's `runtimeError` (a
`runtime.Error`), `hostRuntime` any other host `runtime.Error`,
`strp` a plain string, `plain` the interpreter's `plainError`, and
`valueError` a `*reflect.ValueError` (which is not a
`runtime.Error`). -/
inductive Payload where
  | target (v : GoValue)
  | exit (code : Int)
  | rte (msg : String)
  | hostRuntime (msg : String)
  | strp (s : String)
  | plain (msg : String)
  | valueError (msg : String)
  deriving DecidableEq, Repr

/-- The Go `%T` name of a panic payload (used by the source's
`unexpected panic type` messages). -/
def payloadTypeName : Option Payload → String
  | some (.target _) => "gossa.targetPanic"
  | some (.exit _) => "gossa.exitPanic"
  | some (.rte _) => "gossa.runtimeError"
  | some (.hostRuntime _) => "runtime.Error"
  | some (.strp _) => "string"
  | some (.plain _) => "gossa.plainError"
  | some (.valueError _) => "*reflect.ValueError"
  | none => "<nil>"

/-- Interpreter mode flags. -/
structure Mode where
  enableTracing : Bool
  enableDumpInstr : Bool
  disableRecover : Bool
  deriving DecidableEq, Repr

/-- The default mode: all flags clear. -/
def defaultMode : Mode := ⟨false, false, false⟩

/-- Errors returned by `Run`: the recovered panic itself, a
`plainError` wrapping a string payload, the `unexpected type` error of
the default arm, or the `no function` lookup error. -/
inductive RunErr where
  | panicErr (p : Payload)
  | plainWrap (s : String)
  | unexpectedType (p : Payload)
  | noFunction (entry : String)
  deriving DecidableEq, Repr

/-- Outcome of `i.call` on the entry function: it returns normally or
unwinds with a host panic carrying `p`. -/
inductive CallOutcome where
  | normal
  | panics (p : Payload)
  deriving DecidableEq, Repr

/-- The source's `Interp.Run(entry)`.  `found` models
`i.mainpkg.Func(entry) != nil` and `outcome` the behaviour of the
entry call.  `exitCode` starts at 2; the deferred handler only
recovers when it is still 2 and `DisableRecover` is clear — with
`DisableRecover` set, a panic propagates to the embedder, modelled as
`Except.error`. -/
def Run (mode : Mode) (entry : String) (found : Bool) (outcome : CallOutcome) :
    Except Payload (Int × Option RunErr) :=
  if found then
    match outcome with
    | .normal => .ok (0, none)
    | .panics p =>
      if mode.disableRecover then .error p
      else
        match p with
        | .exit c => .ok (c, none)
        | .target v => .ok (2, some (.panicErr (.target v)))
        | .rte m => .ok (2, some (.panicErr (.rte m)))
        | .hostRuntime m => .ok (2, some (.panicErr (.hostRuntime m)))
        | .strp s => .ok (2, some (.plainWrap s))
        | .plain m => .ok (2, some (.panicErr (.plain m)))
        | .valueError m => .ok (2, some (.unexpectedType (.valueError m)))
  else .ok (1, some (.noFunction entry))

/-- The panic-related state `doRecover` reads and writes: the flags of
the frame that called `recover()` (`caller` in the source) and of its
caller (`caller.caller`). -/
structure RecoverState where
  callerPanicking : Bool
  hasCallerCaller : Bool
  ccPanicking : Bool
  ccPanic : Option Payload
  deriving DecidableEq, Repr

/-- What a successful `recover()` hands back to the target program:
the `targetPanic` payload or a bare string is returned as a value;
the error kinds are returned as the error object itself. -/
inductive RecoverResult where
  | val (v : GoValue)
  | errVal (p : Payload)
  deriving DecidableEq, Repr

/-- The source's `doRecover(caller)`.  When `DisableRecover` is clear,
the calling frame is not panicking, and its caller exists and is
panicking, the outer panic state is cleared and the payload returned
according to its kind; a payload outside the handled kinds (such as
`exitPanic`, or a nil payload) hits the default arm, which panics
with `unexpected panic type` after the state was already cleared.  In
every other situation it returns nil and leaves the state alone. -/
def doRecover (mode : Mode) (s : RecoverState) :
    Except String (Option RecoverResult) × RecoverState :=
  if !mode.disableRecover && !s.callerPanicking && s.hasCallerCaller && s.ccPanicking then
    let s2 : RecoverState := { s with ccPanicking := false, ccPanic := none }
    match s.ccPanic with
    | some (.target v) => (.ok (some (.val v)), s2)
    | some (.rte m) => (.ok (some (.errVal (.rte m))), s2)
    | some (.hostRuntime m) => (.ok (some (.errVal (.hostRuntime m))), s2)
    | some (.strp t) => (.ok (some (.val (.strv t))), s2)
    | some (.plain m) => (.ok (some (.errVal (.plain m))), s2)
    | some (.valueError m) => (.ok (some (.errVal (.valueError m))), s2)
    | some (.exit c) =>
        (.error ("unexpected panic type " ++ payloadTypeName (some (.exit c)) ++
          " in target call to recover()"), s2)
    | none =>
        (.error ("unexpected panic type " ++ payloadTypeName none ++
          " in target call to recover()"), s2)
  else (.ok none, s)

/-- Instructions of a straight-line function body, as much of the
instruction set as the defer/panic claims exercise: `deferPrint`
models a `*ssa.Defer` whose call prints a string, `runDefersI` the
`*ssa.RunDefers` on the normal return path, `panicI` an `*ssa.Panic`,
and `retI` a `*ssa.Return`. -/
inductive MiniInstr where
  | deferPrint (s : String)
  | runDefersI
  | panicI (v : GoValue)
  | retI
  deriving DecidableEq, Repr

/-- The dispatcher loop `runFrame` on a straight-line body.  A `Defer`
prepends to the frame's defer chain (`fr.defers = &deferred\x7b...,
tail: fr.defers\x7d`); `RunDefers` drains the chain front to back
(`for d := fr.defers; d != nil; d = d.tail`), appending each print to
the output; a `Panic` raises a host `targetPanic` that unwinds out of
`runFrame` immediately — the recover-block handler that would mark
the frame panicking and drain its defers is commented out in the
source, and neither `callSSA` nor `callFunction` recovers — so the
pending defers never run.  Returns the printed output and the panic
payload if one escaped. -/
def runMini : List MiniInstr → List String → List String →
    List String × Option GoValue
  | [], _, out => (out, none)
  | .deferPrint s :: rest, defers, out => runMini rest (s :: defers) out
  | .runDefersI :: rest, defers, out =>
      runMini rest [] (out ++ defers)
  | .panicI v :: _, _, out => (out, some v)
  | .retI :: _, _, out => (out, none)

/-- What a successful `recover()` returns for a handled payload kind:
`targetPanic` and bare strings yield the carried value, the error
kinds yield the error object; `exitPanic` is not handled. -/
def recoveredOf : Payload → Option RecoverResult
  | .target v => some (.val v)
  | .rte m => some (.errVal (.rte m))
  | .hostRuntime m => some (.errVal (.hostRuntime m))
  | .strp t => some (.val (.strv t))
  | .plain m => some (.errVal (.plain m))
  | .valueError m => some (.errVal (.valueError m))
  | .exit _ => none

/-- C1: the claim says every BinOp executor falls through to the
generic numeric kernel (opADD etc.) on non-int operand kinds.  The
compiled ADD executor instead asserts `.(int)` on both operands, so
string (or float) operands fault with a host type-assertion error
even though the kernel `opADD` it never calls would have produced the
source-language result; SUB behaves the same, while MUL really does
delegate to its kernel. -/
theorem claim_C1_add_executor_no_fallthrough :
    execADD (.strv ("a")) (.strv ("b")) = .error (assertFault (.strv ("a")) ("int"))
    ∧ opADD (.strv ("a")) (.strv ("b")) = .ok (.strv ("ab"))
    ∧ execSUB (.float64v 1) (.float64v 2) = .error (assertFault (.float64v 1) ("int"))
    ∧ execLSS (.float64v 1) (.float64v 2) = .error (assertFault (.float64v 1) ("int"))
    ∧ execMUL (.int8v 2) (.int8v 3) = .ok (.int8v 6) := by
  refine ⟨rfl, rfl, rfl, rfl, by decide⟩

/-- C2 counterexample: with the calling frame not panicking, its
caller panicking with an `exitPanic` payload, and `DisableRecover`
clear — exactly the situation in which the claim says `recover()`
succeeds — `doRecover` instead clears the panic state and then aborts
with `unexpected panic type`, so it neither succeeds nor leaves the
state unchanged. -/
theorem claim_C2_counterexample :
    (doRecover defaultMode ⟨false, true, true, some (.exit 3)⟩).1
      = .error ("unexpected panic type gossa.exitPanic in target call to recover()")
    ∧ (doRecover defaultMode ⟨false, true, true, some (.exit 3)⟩).2
      = ⟨false, true, false, none⟩ := by
  exact ⟨rfl, rfl⟩

/-- C2 amended: `recover()` returns nil and changes no panic state
whenever `DisableRecover` is set, the calling frame is panicking, or
its caller is missing or not panicking; when all conditions hold and
the pending payload is of a handled kind (not `exitPanic`), it
succeeds: the caller's caller was panicking before, is no longer
panicking after, its payload is cleared to nil, and the payload is
returned. -/
theorem claim_C2_recover_amended (mode : Mode) (s : RecoverState) :
    (mode.disableRecover = true ∨ s.callerPanicking = true ∨
        s.hasCallerCaller = false ∨ s.ccPanicking = false →
      doRecover mode s = (.ok none, s))
    ∧ (∀ p : Payload, mode.disableRecover = false → s.callerPanicking = false →
        s.hasCallerCaller = true → s.ccPanicking = true → s.ccPanic = some p →
        (∀ c, p ≠ .exit c) →
        doRecover mode s
          = (.ok (recoveredOf p), { s with ccPanicking := false, ccPanic := none })
          ∧ recoveredOf p ≠ none) := by
  constructor
  · intro h
    unfold doRecover
    rcases h with h | h | h | h <;> simp [h]
  · intro p h1 h2 h3 h4 hp hne
    unfold doRecover
    rw [h1, h2, h3, h4, hp]
    cases p with
    | target v => exact ⟨rfl, by simp [recoveredOf]⟩
    | exit c => exact absurd rfl (hne c)
    | rte m => exact ⟨rfl, by simp [recoveredOf]⟩
    | hostRuntime m => exact ⟨rfl, by simp [recoveredOf]⟩
    | strp t => exact ⟨rfl, by simp [recoveredOf]⟩
    | plain m => exact ⟨rfl, by simp [recoveredOf]⟩
    | valueError m => exact ⟨rfl, by simp [recoveredOf]⟩

/-- C2 witness: the amended theorem applied at a concrete panicking
state with a `targetPanic` payload and at a state whose calling frame
is already panicking. -/
theorem claim_C2_recover_amended_witness :
    (doRecover defaultMode ⟨false, true, true, some (.target (.intv 7))⟩
        = (.ok (recoveredOf (.target (.intv 7))),
            ⟨false, true, false, none⟩)
      ∧ recoveredOf (.target (.intv 7)) ≠ none)
    ∧ doRecover defaultMode ⟨true, true, true, some (.target (.intv 7))⟩
        = (.ok none, ⟨true, true, true, some (.target (.intv 7))⟩) := by
  refine ⟨?_, ?_⟩
  · exact (claim_C2_recover_amended defaultMode
      ⟨false, true, true, some (.target (.intv 7))⟩).2 (.target (.intv 7))
      rfl rfl rfl rfl rfl (by intro c h; cases h)
  · exact (claim_C2_recover_amended defaultMode
      ⟨true, true, true, some (.target (.intv 7))⟩).1 (Or.inr (Or.inl rfl))

/-- C3: `Run(entry)` returns exit code 0 and no error when the entry
exists and the call completes normally; exit code 1 and a lookup
error when the entry is missing; in the default mode, exit code 2
with the panic as the error on an uncaught target panic, and the
carried code on an `ExitPanic`. -/
theorem claim_C3_run_exit_codes (mode : Mode) (entry : String)
    (outcome : CallOutcome) (v : GoValue) (c : Int) :
    Run mode entry true .normal = .ok (0, none)
    ∧ Run mode entry false outcome = .ok (1, some (.noFunction entry))
    ∧ Run defaultMode entry true (.panics (.target v))
        = .ok (2, some (.panicErr (.target v)))
    ∧ Run defaultMode entry true (.panics (.exit c)) = .ok (c, none) := by
  exact ⟨rfl, rfl, rfl, rfl⟩

/-- C4: on the normal return path `RunDefers` does drain the defers
of a frame in LIFO order (three defers A, B, C print C, B, A), but a
frame that panics never runs its deferred calls at all — the
recover-block handler in `runFrame` is commented out — so the
three-defer-then-panic program of the claim prints nothing before the
`targetPanic` reaches the embedder with exit code 2. -/
theorem claim_C4_panic_bypasses_defers :
    runMini [.deferPrint ("A"), .deferPrint ("B"), .deferPrint ("C"),
        .runDefersI, .retI] [] [] = (["C", "B", "A"], none)
    ∧ runMini [.deferPrint ("A"), .deferPrint ("B"), .deferPrint ("C"),
        .panicI (.strv ("boom"))] [] [] = ([], some (.strv ("boom")))
    ∧ Run defaultMode ("main") true (.panics (.target (.strv ("boom"))))
        = .ok (2, some (.panicErr (.target (.strv ("boom"))))) := by
  exact ⟨rfl, rfl, rfl⟩

/-- C5: two-index string slicing returns the substring whenever
`0 ≤ lo ≤ hi ≤ len`; on `s = "hello"`, `s[0:3]` evaluates to `"hel"`
and `s[10:11]` fails with the runtime error
`slice bounds out of range [:11] with length 5`. -/
theorem claim_C5_string_slice :
    slice false (.strOp ("hello")) (some 0) (some 3) none = .ok (.strRes ("hel"))
    ∧ slice false (.strOp ("hello")) (some 10) (some 11) none
        = .error (.runtimeErr ("slice bounds out of range [:11] with length 5"))
    ∧ ∀ (s : String) (l h : Int), 0 ≤ l → l ≤ h → h ≤ (s.length : Int) →
        slice false (.strOp s) (some l) (some h) none
          = .ok (.strRes (goSubstring s l h)) := by
  refine ⟨by decide, by decide, ?_⟩
  intro s l h hl hlh hh
  unfold slice
  simp only [operandLenCap, Option.getD_some, Option.isSome_none, Bool.false_eq_true,
    if_false]
  have c1 : ¬ h < 0 := by omega
  have c2 : ¬ h > (s.length : Int) := by omega
  have c3 : ¬ l < 0 := by omega
  have c4 : ¬ l > h := by omega
  simp only [c1, c2, c3, c4, if_false]
  by_cases he : l = h
  · subst he
    have : goSubstring s l l = "" := by
      unfold goSubstring
      rw [Int.sub_self]
      rfl
    simp [this]
  · simp [he]

/-- C5 witness: the general clause of the theorem applied to
`"hello"[1:4]`. -/
theorem claim_C5_string_slice_witness :
    slice false (.strOp ("hello")) (some 1) (some 4) none
      = .ok (.strRes (goSubstring ("hello") 1 4)) :=
  claim_C5_string_slice.2.2 ("hello") 1 4 (by decide) (by decide) (by decide)

/-- C6 counterexample: with all three indices of `x[-1:10:20]` out of
range on a slice of capacity 5, the reported message is the one for
the `max ≤ cap` check, not the one for the `0 ≤ lo` check that the
claim says takes precedence. -/
theorem claim_C6_counterexample :
    slice false (.slOp 5 5) (some (-1)) (some 10) (some 20)
      = .error (.runtimeErr ("slice bounds out of range [::20] with capacity 5"))
    ∧ slice false (.slOp 5 5) (some (-1)) (some 10) (some 20)
      ≠ .error (.runtimeErr ("slice bounds out of range [-1::]")) := by
  exact ⟨by decide, by decide⟩

/-- C6 amended: three-index bounds are validated in the order
`0 ≤ max`, `max ≤ cap`, `0 ≤ hi`, `hi ≤ max`, `0 ≤ lo`, `lo ≤ hi`,
each failure raising a distinct runtime message naming the offending
index, so the max checks take precedence over the hi and lo checks;
the slice succeeds exactly when all the bounds hold. -/
theorem claim_C6_slice3_check_order (Len Cap l h m : Int) :
    (slice false (.slOp Len Cap) (some l) (some h) (some m) = .ok (.slRes l h m)
      ↔ 0 ≤ l ∧ l ≤ h ∧ h ≤ m ∧ m ≤ Cap)
    ∧ (0 ≤ m → Cap < m →
        slice false (.slOp Len Cap) (some l) (some h) (some m)
          = .error (.runtimeErr ("slice bounds out of range [::" ++ toString m ++
              "] with capacity " ++ toString Cap)))
    ∧ (0 ≤ m → m ≤ Cap → 0 ≤ h → h ≤ m → l < 0 →
        slice false (.slOp Len Cap) (some l) (some h) (some m)
          = .error (.runtimeErr ("slice bounds out of range [" ++ toString l ++ "::]"))) := by
  unfold slice
  simp only [operandLenCap, Option.getD_some, Option.isSome_some, if_true]
  refine ⟨?_, ?_, ?_⟩
  · constructor
    · intro hok
      by_contra hc
      push_neg at hc
      split_ifs at hok <;> simp_all
    · intro ⟨h1, h2, h3, h4⟩
      have c1 : ¬ m < 0 := by omega
      have c2 : ¬ m > Cap := by omega
      have c3 : ¬ h < 0 := by omega
      have c4 : ¬ h > m := by omega
      have c5 : ¬ l < 0 := by omega
      have c6 : ¬ l > h := by omega
      simp [c1, c2, c3, c4, c5, c6]
  · intro h1 h2
    have c1 : ¬ m < 0 := by omega
    have c2 : m > Cap := by omega
    simp [c1, c2]
  · intro h1 h2 h3 h4 h5
    have c1 : ¬ m < 0 := by omega
    have c2 : ¬ m > Cap := by omega
    have c3 : ¬ h < 0 := by omega
    have c4 : ¬ h > m := by omega
    have c5 : l < 0 := h5
    simp [c1, c2, c3, c4, c5]

/-- C6 witness: the amended theorem applied to a slice of capacity 5,
in its success direction at `x[0:1:2]` and for the two precedence
clauses at `x[-1:10:20]` and `x[-1:2:3]`. -/
theorem claim_C6_slice3_check_order_witness :
    slice false (.slOp 5 5) (some 0) (some 1) (some 2) = .ok (.slRes 0 1 2)
    ∧ slice false (.slOp 5 5) (some (-1)) (some 10) (some 20)
        = .error (.runtimeErr ("slice bounds out of range [::" ++ toString (20 : Int) ++
            "] with capacity " ++ toString (5 : Int)))
    ∧ slice false (.slOp 5 5) (some (-1)) (some 2) (some 3)
        = .error (.runtimeErr ("slice bounds out of range [" ++ toString (-1 : Int) ++ "::]")) := by
  refine ⟨?_, ?_, ?_⟩
  · exact (claim_C6_slice3_check_order 5 5 0 1 2).1.mpr (by decide)
  · exact (claim_C6_slice3_check_order 5 5 (-1) 10 20).2.1 (by decide) (by decide)
  · exact (claim_C6_slice3_check_order 5 5 (-1) 2 3).2.2 (by decide) (by decide)
      (by decide) (by decide) (by decide)

/-- C7 counterexample: when the shift-count operand is not an SSA
Convert from a signed kind, a negative `int` count does not produce
`RuntimeError("negative shift amount")`: the generic executor hands
the count to `asUint64`, which fails with the plain interpreter panic
`cannot convert int to uint64`. -/
theorem claim_C7_counterexample :
    execSHLGeneric (.intv 1) (.intv (-1))
      = .error (.crash ("cannot convert int to uint64"))
    ∧ execSHLGeneric (.intv 1) (.intv (-1))
      ≠ .error (.runtimeErr ("negative shift amount")) := by
  exact ⟨rfl, by decide⟩

/-- C7 amended: only the executors compiled for a shift whose count
operand is an SSA Convert from a signed integer kind raise
`RuntimeError("negative shift amount")` on a negative count; on every
other shape the count goes straight to `asUint64`, which converts
unsigned counts to 64 bits and fails with the internal
`cannot convert ... to uint64` panic on any signed count, negative or
not. -/
theorem claim_C7_negative_shift_amended (x : GoValue) (cx n v : Int) :
    (cx < 0 →
      execSHLConvSigned x cx = .error (.runtimeErr ("negative shift amount"))
      ∧ execSHRConvSigned x cx = .error (.runtimeErr ("negative shift amount")))
    ∧ execSHLGeneric x (.intv n) = .error (.crash ("cannot convert int to uint64"))
    ∧ execSHRGeneric x (.intv n) = .error (.crash ("cannot convert int to uint64"))
    ∧ asUint64 (.uint64v v) = .ok v
    ∧ asUint64 (.uint32v v) = .ok v := by
  refine ⟨?_, ?_, ?_, rfl, rfl⟩
  · intro hneg
    unfold execSHLConvSigned execSHRConvSigned
    rw [if_pos hneg, if_pos hneg]
    exact ⟨rfl, rfl⟩
  · rfl
  · rfl

/-- C7 witness: the amended theorem applied at a concrete negative
Convert source and a concrete direct `int` count. -/
theorem claim_C7_negative_shift_amended_witness :
    (execSHLConvSigned (.intv 1) (-5) = .error (.runtimeErr ("negative shift amount"))
      ∧ execSHRConvSigned (.intv 1) (-5) = .error (.runtimeErr ("negative shift amount")))
    ∧ execSHLGeneric (.intv 1) (.intv 3) = .error (.crash ("cannot convert int to uint64"))
    ∧ execSHRGeneric (.intv 1) (.intv 3) = .error (.crash ("cannot convert int to uint64"))
    ∧ asUint64 (.uint64v 9) = .ok 9
    ∧ asUint64 (.uint32v 9) = .ok 9 := by
  have h := claim_C7_negative_shift_amended (.intv 1) (-5) 3 9
  exact ⟨h.1 (by decide), h.2.1, h.2.2.1, h.2.2.2.1, h.2.2.2.2⟩

/-- C8 counterexample: asserting a nil interface in the non-comma-ok
form fails with the interpreter's `plainError`, which does not have
the `runtime.Error` shape the claim requires. -/
theorem claim_C8_counterexample :
    typeAssert false ⟨"main.T", .intv 0⟩ ("interface \x7b\x7d") none
      = .error (.plainErr ("interface conversion: interface is nil, not main.T"))
    ∧ faultIsRuntimeError
        (.plainErr ("interface conversion: interface is nil, not main.T")) = false := by
  exact ⟨rfl, rfl⟩

/-- C8 amended: on a nil operand, the comma-ok form returns the zero
value of `T` with `ok = false` without panicking, and the non-comma-ok
form fails with a `plainError` (not an error of the `runtime.Error`
shape) whose message says the interface is nil and names `T`;
a non-nil operand of dynamic type `T` is returned unchanged. -/
theorem claim_C8_nil_type_assert_amended (T : RType) (xt : String) (pv : GoValue) :
    typeAssert true T xt none = .ok (.pair T.zero false)
    ∧ typeAssert false T xt none
        = .error (.plainErr ("interface conversion: interface is nil, not " ++ T.name))
    ∧ faultIsRuntimeError
        (.plainErr ("interface conversion: interface is nil, not " ++ T.name)) = false
    ∧ typeAssert false T xt (some ⟨T, pv⟩) = .ok (.one pv) := by
  refine ⟨rfl, rfl, rfl, ?_⟩
  unfold typeAssert
  simp

/-- C9 counterexample: a request with `len = cap = maxMemLen` on a
64-bit target satisfies the claim's `0 ≤ len ≤ cap ≤ maxMemLen`
precondition but is rejected, because the code tests `len >= maxMemLen`
rather than `len > maxMemLen`. -/
theorem claim_C9_counterexample :
    (0 : Int) ≤ maxMemLen 64
    ∧ maxMemLen 64 ≤ maxMemLen 64
    ∧ makeSliceExec (maxMemLen 64) (maxMemLen 64) (maxMemLen 64)
        = .error (.runtimeErr ("makeslice: len out of range")) := by
  exact ⟨by decide, le_refl _, by decide⟩

/-- C9 amended: `MakeSlice` enforces `0 ≤ len < maxMemLen` (failure:
`makeslice: len out of range`) and then `0 ≤ cap < maxMemLen`
(failure: `makeslice: cap out of range`); it does not check
`len ≤ cap` itself — that violation surfaces as the host
`reflect.MakeSlice` panic — and a request with
`0 ≤ len ≤ cap < maxMemLen` succeeds. -/
theorem claim_C9_makeslice_amended (mm len cap : Int) :
    (0 ≤ len → len ≤ cap → cap < mm → makeSliceExec mm len cap = .ok ⟨len, cap⟩)
    ∧ (len < 0 ∨ mm ≤ len →
        makeSliceExec mm len cap = .error (.runtimeErr ("makeslice: len out of range")))
    ∧ (0 ≤ len → len < mm → cap < 0 ∨ mm ≤ cap →
        makeSliceExec mm len cap = .error (.runtimeErr ("makeslice: cap out of range")))
    ∧ (0 ≤ len → len < mm → 0 ≤ cap → cap < mm → cap < len →
        makeSliceExec mm len cap = .error (.crash ("reflect.MakeSlice: len > cap"))) := by
  unfold makeSliceExec
  refine ⟨?_, ?_, ?_, ?_⟩
  · intro h1 h2 h3
    have c1 : ¬ (len < 0 ∨ len ≥ mm) := by omega
    have c2 : ¬ (cap < 0 ∨ cap ≥ mm) := by omega
    have c3 : ¬ len > cap := by omega
    simp only [decide_eq_true_eq, Bool.or_eq_true] at *
    split_ifs
    simp_all
  · intro h1
    split_ifs with g1 <;> simp_all
  · intro h1 h2 h3
    split_ifs <;> simp_all
    omega
  · intro h1 h2 h3 h4 h5
    split_ifs <;> simp_all <;> omega

/-- C9 witness: the amended theorem applied with bound 10 at the
inputs (2, 3), (-1, 3), (2, 11) and (5, 2). -/
theorem claim_C9_makeslice_amended_witness :
    makeSliceExec 10 2 3 = .ok ⟨2, 3⟩
    ∧ makeSliceExec 10 (-1) 3 = .error (.runtimeErr ("makeslice: len out of range"))
    ∧ makeSliceExec 10 2 11 = .error (.runtimeErr ("makeslice: cap out of range"))
    ∧ makeSliceExec 10 5 2 = .error (.crash ("reflect.MakeSlice: len > cap")) := by
  refine ⟨?_, ?_, ?_, ?_⟩
  · exact (claim_C9_makeslice_amended 10 2 3).1 (by decide) (by decide) (by decide)
  · exact (claim_C9_makeslice_amended 10 (-1) 3).2.1 (Or.inl (by decide))
  · exact (claim_C9_makeslice_amended 10 2 11).2.2.1 (by decide) (by decide)
      (Or.inr (by decide))
  · exact (claim_C9_makeslice_amended 10 5 2).2.2.2 (by decide) (by decide) (by decide)
      (by decide) (by decide)

/-- C10 counterexample: a `Store` through a `FieldAddr` that selects
the blank field of a NAMED struct type is not skipped — the
`.(*types.Struct)` assertion sees the `*types.Named` wrapper and
fails — so the compiled executor writes the field. -/
theorem claim_C10_counterexample :
    storeSkipsBlankField (some (.pointer (.named ("T") (.structT ["_", "x"])), 0)) = false
    ∧ execStoreField (.pointer (.named ("T") (.structT ["_", "x"]))) 0
        [.intv 0, .intv 1] (.intv 7) = [.intv 7, .intv 1]
    ∧ ([GoValue.intv 7, .intv 1] ≠ [GoValue.intv 0, .intv 1]) := by
  exact ⟨rfl, rfl, by decide⟩

/-- C10 amended: a `Store` whose address is a `FieldAddr` selecting a
field named `_` is compiled to no executor — leaving every register,
local, global and sibling field unchanged — only when the pointer's
element type is syntactically an unnamed struct type; behind a
`named` wrapper (and for non-`FieldAddr` addresses) the store is
compiled and executed normally. -/
theorem claim_C10_blank_store_amended (fs : List String) (i : Nat)
    (st : List GoValue) (v : GoValue) (n : String) (u : GoType) :
    (fs.get? i = some ("_") →
      storeSkipsBlankField (some (.pointer (.structT fs), i)) = true
      ∧ execStoreField (.pointer (.structT fs)) i st v = st)
    ∧ storeSkipsBlankField (some (.pointer (.named n u), i)) = false
    ∧ execStoreField (.pointer (.named n u)) i st v = st.set i v
    ∧ storeSkipsBlankField none = false := by
  refine ⟨?_, rfl, rfl, rfl⟩
  intro hf
  have hskip : storeSkipsBlankField (some (.pointer (.structT fs), i)) = true := by
    show decide (fs.get? i = some ("_")) = true
    rw [hf]
    rfl
  refine ⟨hskip, ?_⟩
  unfold execStoreField
  simp [hskip]

/-- C10 witness: the amended theorem applied to a one-field unnamed
struct whose single field is blank. -/
theorem claim_C10_blank_store_amended_witness :
    storeSkipsBlankField (some (.pointer (.structT ["_"]), 0)) = true
    ∧ execStoreField (.pointer (.structT ["_"])) 0 [.intv 5] (.intv 9) = [.intv 5] :=
  (claim_C10_blank_store_amended ["_"] 0 [.intv 5] (.intv 9) ("T") (.basic ("int"))).1
    (by decide)

end Gossa
